import Mathlib

/-!
Shallow embedding of the `vox` repository (files `vox.py` and `vox_gui.py`)
for checking its natural-language specification.

The embedding models:
* the transcription client (`transcribe` in `vox.py`, `VoxWindow.transcribe`
  in `vox_gui.py`): HTTP response handling, JSON field extraction with
  Python `KeyError` / `IndexError` semantics, the three sidecar files
  (`<path>.json`, `<path>.txt`, `<path>.error`) and the clipboard;
* the session controller (`callback`, `cleanup`, `start_recording`,
  `stop_recording`, `signal_handler` in `vox.py`): the audio buffer, the
  stop event, the two marker files (`~/.recordpid`, `~/.recordaudio`) and
  the waveform file;
* `main` of `vox.py`, for process exit codes.

Stateful Python code becomes explicit state passing; `sys.exit` and
uncaught exceptions become explicit outcome constructors; the nondeterministic
audio-callback deliveries become an explicit list of blocks.
-/

namespace Vox

/-- Python whitespace characters, as used by `str.strip` / `str.rstrip`
with no argument. -/
def pyIsSpace (c : Char) : Bool :=
  c = ' ' || c = '\t' || c = '\n' || c = '\r' || c = '\x0b' || c = '\x0c'

/-- Python `str.rstrip()`: remove trailing whitespace. -/
def pyRstrip (s : String) : String :=
  String.mk ((s.data.reverse.dropWhile pyIsSpace).reverse)

/-- Python `str.strip()`: remove leading and trailing whitespace. -/
def pyStrip (s : String) : String :=
  String.mk (((s.data.dropWhile pyIsSpace).reverse.dropWhile pyIsSpace).reverse)

/-- JSON values, as produced by `response.json()`. -/
inductive Json where
  | jstr : String → Json
  | jnum : Int → Json
  | jbool : Bool → Json
  | jnull : Json
  | jarr : List Json → Json
  | jobj : List (String × Json) → Json

/-- Python exception classes relevant to the `except` clauses of
`transcribe`. -/
inductive PyErr where
  | keyError
  | indexError
  | typeError
  | attributeError
  deriving DecidableEq

/-- Python subscript `value[key]` with a string key: a `dict` lookup
raises `KeyError` when the key is absent, and any non-dict value raises
`TypeError`. -/
def Json.getKey : Json → String → Except PyErr Json
  | .jobj kvs, k =>
    match kvs.lookup k with
    | some v => .ok v
    | none => .error .keyError
  | _, _ => .error .typeError

/-- Python subscript `value[i]` with an integer index: a `list` raises
`IndexError` out of bounds, a `dict` raises `KeyError` (JSON objects have
no integer keys), a string yields a one-character string or `IndexError`,
other values raise `TypeError`. -/
def Json.getIdx : Json → Nat → Except PyErr Json
  | .jarr xs, i =>
    match xs.get? i with
    | some v => .ok v
    | none => .error .indexError
  | .jobj _, _ => .error .keyError
  | .jstr s, i =>
    match s.data.get? i with
    | some c => .ok (.jstr (String.mk [c]))
    | none => .error .indexError
  | _, _ => .error .typeError

/-- The fixed extraction path used by both front ends:
`body["results"]["channels"][0]["alternatives"][0]["transcript"]`. -/
def extractTranscript (body : Json) : Except PyErr Json := do
  let r ← body.getKey "results"
  let cs ← r.getKey "channels"
  let c0 ← cs.getIdx 0
  let as_ ← c0.getKey "alternatives"
  let a0 ← as_.getIdx 0
  a0.getKey "transcript"

/-- Outcome of the HTTP POST to the recognition endpoint, as observed by
the caller of `requests.post`: either a response (status code, parsed JSON
body, and the text `str(e)` an `HTTPError` raised by `raise_for_status`
would carry), or a connection-level `RequestException` with its text. -/
inductive HttpResult where
  | response (status : Nat) (body : Json) (errText : String)
  | connError (errText : String)

/-- `response.raise_for_status()` raises `HTTPError` exactly for status
codes in [400, 600). -/
def raiseForStatus (status : Nat) : Bool :=
  400 ≤ status && status < 600

/-- The HTTP request both front ends build: URL from the model name,
`Authorization` header from the key, `Content-Type` from `AUDIO_FORMAT`. -/
structure Request where
  url : String
  authHeader : String
  contentType : String
  deriving DecidableEq

def AUDIO_FORMAT : String := "wav"

/-- The request constructed by
`requests.post(f"https://api.deepgram.com/v1/listen?model={model}&smart_format=true",
headers={"Authorization": f"Token {key}", "Content-Type": f"audio/{AUDIO_FORMAT}"}, ...)`. -/
def mkRequest (model key : String) : Request :=
  { url := "https://api.deepgram.com/v1/listen?model=" ++ model ++ "&smart_format=true"
    authHeader := "Token " ++ key
    contentType := "audio/" ++ AUDIO_FORMAT }

/-- Durable and external side effects of one `transcribe` call:
the three sidecar files (`none` = absent), the clipboard content, and the
network request performed (if any). -/
structure FxState where
  jsonFile : Option Json
  txtFile : Option String
  errorFile : Option String
  clipboard : Option String
  request : Option Request

/-- State before any transcription attempt: no sidecars, nothing on the
clipboard, no request performed. -/
def FxState.init : FxState :=
  { jsonFile := none, txtFile := none, errorFile := none
    clipboard := none, request := none }

/-- How one call to `transcribe` ends: a transcript (normal return),
one of the `sys.exit(1)` / status-text failure paths, or an exception not
caught by its `except` clauses. -/
inductive Outcome where
  | ok (transcript : String)
  | missingAudio
  | transportFail
  | malformedResponse
  | uncaught (e : PyErr)
  deriving DecidableEq

/-- `transcribe(audio_file)` of `vox.py` (lines 153-202), with the globals
`DEEPGRAM_MODEL` / `DEEPGRAM_API_KEY` passed explicitly, the filesystem
check `Path(audio_file).exists()` abstracted to `audioExists`, and the
network interaction abstracted to the observed `HttpResult`. -/
def transcribe (model key : String) (audioExists : Bool) (resp : HttpResult)
    (st : FxState) : Outcome × FxState :=
  if !audioExists then
    (.missingAudio, st)
  else
    let st := { st with request := some (mkRequest model key) }
    match resp with
    | .connError errText =>
      (.transportFail, { st with errorFile := some errText })
    | .response status body errText =>
      if raiseForStatus status then
        (.transportFail, { st with errorFile := some errText })
      else
        let st := { st with jsonFile := some body }
        match extractTranscript body with
        | .ok (.jstr t) =>
          (.ok t, { st with txtFile := some (pyRstrip t)
                            clipboard := some t
                            errorFile := none })
        | .ok _ =>
          -- `open(txt_file, "w")` truncates before `.rstrip()` raises
          (.uncaught .attributeError, { st with txtFile := some "" })
        | .error .keyError => (.malformedResponse, st)
        | .error .indexError => (.malformedResponse, st)
        | .error e => (.uncaught e, st)

/-- A well-shaped success body carrying transcript `t`:
`{"results":{"channels":[{"alternatives":[{"transcript": t}]}]}}`. -/
def respBody (t : String) : Json :=
  .jobj [("results", .jobj [("channels", .jarr
    [.jobj [("alternatives", .jarr [.jobj [("transcript", .jstr t)]])]])])]

/-! ### Session controller (`vox.py` lines 55-150) -/

/-- One audio block delivered by the input stream callback. The stream is
opened with `channels=CHANNELS` (mono), so a block is a flat list of
samples. -/
abbrev Block := List Int

def SAMPLE_RATE : Nat := 16000

def CHANNELS : Nat := 1

/-- The waveform file written by
`wavfile.write(audio_file, SAMPLE_RATE, np.concatenate(audio_data))`:
target path, sample-rate tag, channel count (from the array shape, which
the `channels=CHANNELS` stream fixes), and the concatenated samples. -/
structure WavFile where
  path : String
  sampleRate : Nat
  channels : Nat
  samples : List Int
  deriving DecidableEq

/-- The process-global mutable state of `vox.py`'s session controller plus
the filesystem locations it touches: `recording_process`, `audio_data`,
`stop_event`, the two marker files `~/.recordpid` (content = pid string)
and `~/.recordaudio` (content = target path), and the waveform file. -/
structure SessState where
  recording_process : Bool
  audio_data : List Block
  stop_event : Bool
  pidFile : Option String
  audioTracker : Option String
  wavFile : Option WavFile
  deriving DecidableEq

/-- Fresh-process state: no stream, empty buffer, event unset, no marker
files, no waveform written. -/
def SessState.init : SessState :=
  { recording_process := false, audio_data := [], stop_event := false
    pidFile := none, audioTracker := none, wavFile := none }

/-- `callback(indata, frames, time, status)` (`vox.py` lines 55-60): if the
stop event is not set, append a copy of the block to `audio_data`; the
`status` branch only prints. -/
def callback (b : Block) (s : SessState) : SessState :=
  if !s.stop_event then { s with audio_data := s.audio_data ++ [b] } else s

/-- `cleanup()` (`vox.py` lines 63-71): stop, close and drop the stream if
any, then unlink both marker files (`missing_ok=True`). -/
def cleanup (s : SessState) : SessState :=
  { s with recording_process := false, pidFile := none, audioTracker := none }

/-- `signal_handler(sig, frame)` (`vox.py` lines 74-79): set the stop
event, run `cleanup()`, then `sys.exit(0)`. Returns the exit code and the
state at exit. -/
def signal_handler (s : SessState) : Nat × SessState :=
  (0, cleanup { s with stop_event := true })

/-- How `stop_recording` ends: a returned path, one of the two
`sys.exit(1)` paths, or the uncaught `FileNotFoundError` that
`AUDIO_FILE_TRACKER.read_text()` raises when the tracker marker is
absent while the pid marker is present. -/
inductive StopResult where
  | path (audioFile : String)
  | exitNoData
  | exitNoRecording
  | uncaughtNoTracker
  deriving DecidableEq

/-- `stop_recording()` (`vox.py` lines 131-150): if the pid marker exists
and a stream is open, set the stop event, read the target path from the
tracker marker (Python `.strip()`); write the waveform and return the path
when the buffer is non-empty, else exit 1 — `cleanup()` runs on every
branch. -/
def stop_recording (s : SessState) : StopResult × SessState :=
  if s.pidFile.isSome && s.recording_process then
    let s := { s with stop_event := true }
    match s.audioTracker with
    | none => (.uncaughtNoTracker, s)
    | some content =>
      let audio_file := pyStrip content
      if !s.audio_data.isEmpty then
        let wav : WavFile :=
          ⟨audio_file, SAMPLE_RATE, CHANNELS, s.audio_data.flatten⟩
        let s := { s with wavFile := some wav }
        (.path audio_file, cleanup s)
      else
        (.exitNoData, cleanup s)
  else
    (.exitNoRecording, cleanup s)

def BASE_FILE (home : String) : String := home ++ "/.vox/recording"

/-- The timestamp-derived target path allocated at session start:
`f"{BASE_FILE}_{time.strftime('%Y%m%d_%H%M%S')}.{AUDIO_FORMAT}"`. -/
def targetPath (home now : String) : String :=
  BASE_FILE home ++ "_" ++ now ++ "." ++ AUDIO_FORMAT

/-- The setup half of `start_recording()` (`vox.py` lines 96-117):
`cleanup()`, allocate the timestamp-derived target path, write the tracker
marker, clear the buffer and the stop event, open and start the stream,
write the pid marker. `home` stands for `Path.home()`, `now` for
`time.strftime(...)`, `pid` for `str(os.getpid())`. -/
def beginCapture (home now pid : String) (s : SessState) : SessState :=
  let s := cleanup s
  let audio_file := targetPath home now
  let s := { s with audioTracker := some audio_file }
  let s := { s with audio_data := [], stop_event := false
                    recording_process := true }
  { s with pidFile := some pid }

/-- `start_recording()` (`vox.py` lines 96-128): after `beginCapture`, the
callback fires once per delivered block while the foreground waits; on
timeout or manual stop the event ends up set
(`stop_event.wait(...); if not stop_event.is_set(): stop_event.set()`)
and `stop_recording()` runs. `blocks` is the sequence the device delivered
before the stop condition was observed. -/
def start_recording (home now pid : String) (blocks : List Block)
    (s : SessState) : StopResult × SessState :=
  let s := beginCapture home now pid s
  let s := blocks.foldl (fun acc b => callback b acc) s
  let s := { s with stop_event := true }
  stop_recording s

/-- `check_environment()` (`vox.py` lines 41-52): `sys.exit(1)` when
`DEEPGRAM_API_KEY` is empty. `none` = no exit. -/
def check_environment (key : String) : Option Nat :=
  if key = "" then some 1 else none

/-- `main()` of `vox.py` (lines 205-213) as a function of the run's
environment: credential, home/timestamp/pid strings, model name, whether a
SIGINT arrives during the recording wait, the delivered blocks, whether
the waveform file still exists when `transcribe` checks it, and the HTTP
outcome. Returns the process exit code with the final session and
transcription side-effect states. -/
def main (key home now pid model : String) (interrupted : Bool)
    (blocks : List Block) (wavStillExists : Bool) (resp : HttpResult)
    (s0 : SessState) : Nat × SessState × FxState :=
  match check_environment key with
  | some code => (code, s0, FxState.init)
  | none =>
    if interrupted then
      let s := (beginCapture home now pid s0)
      let s := blocks.foldl (fun acc b => callback b acc) s
      let (code, s) := signal_handler s
      (code, s, FxState.init)
    else
      match start_recording home now pid blocks s0 with
      | (.path _, s) =>
        let (o, fx) := transcribe model key wavStillExists resp FxState.init
        (match o with | .ok _ => 0 | _ => 1, s, fx)
      | (_, s) => (1, s, FxState.init)

end Vox

namespace VoxGui

/-- `VoxWindow.callback` (`vox_gui.py` lines 216-221): same discipline as
the terminal front end — append only while the stop event is unset; the
`status` branch only updates the status label. -/
def callback (b : Vox.Block) (s : Vox.SessState) : Vox.SessState :=
  if !s.stop_event then { s with audio_data := s.audio_data ++ [b] } else s

/-- `VoxWindow.cleanup` (`vox_gui.py` lines 223-232): stop/close/drop the
stream, set the stop event (unlike the terminal `cleanup`), unlink both
markers. -/
def cleanup (s : Vox.SessState) : Vox.SessState :=
  { s with recording_process := false, stop_event := true
           pidFile := none, audioTracker := none }

/-- The value of the `self.transcript` attribute: the extraction result is
assigned to it before `.rstrip()` runs, so it can momentarily hold a
non-string JSON value. -/
inductive PyVal where
  | str (s : String)
  | nonString
  deriving DecidableEq

/-- `VoxWindow.transcribe(audio_file)` (`vox_gui.py` lines 320-367), with
configuration fields passed explicitly and the file-existence check and
network abstracted as in the terminal model. Returns the branch taken, the
side-effect state, and the new value of `self.transcript` (`tr0` is its
value on entry, relevant only when the subscript chain raises before the
assignment completes). The GUI `transcribe` never touches the clipboard
(that is deferred to the Copy button). -/
def transcribe (model key : String) (audioExists : Bool)
    (resp : Vox.HttpResult) (st : Vox.FxState) (tr0 : PyVal) :
    Vox.Outcome × Vox.FxState × PyVal :=
  if !audioExists then
    (.missingAudio, st, .str "")
  else
    let st := { st with request := some (Vox.mkRequest model key) }
    match resp with
    | .connError errText =>
      (.transportFail, { st with errorFile := some errText }, .str "")
    | .response status body errText =>
      if Vox.raiseForStatus status then
        (.transportFail, { st with errorFile := some errText }, .str "")
      else
        let st := { st with jsonFile := some body }
        match Vox.extractTranscript body with
        | .ok (.jstr t) =>
          (.ok t, { st with txtFile := some (Vox.pyRstrip t)
                            errorFile := none }, .str t)
        | .ok _ =>
          (.uncaught .attributeError, { st with txtFile := some "" },
            .nonString)
        | .error .keyError => (.malformedResponse, st, .str "")
        | .error .indexError => (.malformedResponse, st, .str "")
        | .error e => (.uncaught e, st, tr0)

end VoxGui

namespace Vox

/-- The durable artifacts of a transcription attempt that both front ends
are supposed to agree on: the three sidecar files and the network request
(the clipboard is deliberately excluded). -/
def sidecarView (fx : FxState) :
    Option Json × Option String × Option String × Option Request :=
  (fx.jsonFile, fx.txtFile, fx.errorFile, fx.request)

/-- Neither marker file exists. -/
def markersAbsent (s : SessState) : Prop :=
  s.pidFile = none ∧ s.audioTracker = none

/-! ### Helper lemmas -/

/-- A single callback invocation while the stop event is unset appends the
block. -/
theorem callback_not_stopped (b : Block) (s : SessState)
    (h : s.stop_event = false) :
    callback b s = { s with audio_data := s.audio_data ++ [b] } := by
  simp [callback, h]

/-- Delivering a whole sequence of blocks while the stop event is unset
appends them all, in order, and changes nothing else. -/
theorem foldl_callback_not_stopped (blocks : List Block) (s : SessState)
    (h : s.stop_event = false) :
    blocks.foldl (fun acc b => callback b acc) s =
      { s with audio_data := s.audio_data ++ blocks } := by
  induction blocks generalizing s with
  | nil => simp
  | cons b bs ih =>
    rw [List.foldl_cons, callback_not_stopped b s h,
      ih { s with audio_data := s.audio_data ++ [b] } h]
    simp

/-- Explicit evaluation of `start_recording` when no block is delivered
before the stop condition. -/
theorem start_recording_empty (home now pid : String) (s0 : SessState) :
    start_recording home now pid [] s0 =
      (.exitNoData,
       { recording_process := false, audio_data := [], stop_event := true
         pidFile := none, audioTracker := none, wavFile := s0.wavFile }) := by
  simp [start_recording, beginCapture, cleanup, stop_recording]

/-- Once the stop event is set, further callback invocations leave the
state (in particular the buffer) untouched. -/
theorem foldl_callback_stopped (blocks : List Block) (s : SessState)
    (h : s.stop_event = true) :
    blocks.foldl (fun acc b => callback b acc) s = s := by
  induction blocks with
  | nil => rfl
  | cons b bs ih =>
    rw [List.foldl_cons, show callback b s = s from by simp [callback, h]]
    exact ih

/-- Explicit evaluation of `start_recording` on a non-empty delivery
sequence. -/
theorem start_recording_nonempty (home now pid : String)
    (blocks : List Block) (s0 : SessState) (hb : blocks ≠ []) :
    start_recording home now pid blocks s0 =
      (.path (pyStrip (targetPath home now)),
       { recording_process := false, audio_data := blocks, stop_event := true
         pidFile := none, audioTracker := none
         wavFile := some ⟨pyStrip (targetPath home now), SAMPLE_RATE,
                          CHANNELS, blocks.flatten⟩ }) := by
  rw [start_recording, show beginCapture home now pid s0 =
    { recording_process := true, audio_data := [], stop_event := false
      pidFile := some pid, audioTracker := some (targetPath home now)
      wavFile := s0.wavFile } from by simp [beginCapture, cleanup]]
  rw [foldl_callback_not_stopped _ _ rfl]
  simp [stop_recording, cleanup, List.isEmpty_iff, hb]

/-- A session state with the stop event set (used to instantiate the
append-only discipline at a concrete input). -/
def stoppedState : SessState := { SessState.init with stop_event := true }

end Vox

/-! ## Claims -/

/-- C1. Marker invariant: after `cleanup`, after every branch of
`stop_recording`, after `signal_handler` (interrupt exit), and after
`start_recording` returns, neither `~/.recordpid` nor `~/.recordaudio`
exists. The hypothesis states the in-process invariant that the tracker
marker exists whenever the pid marker does (the pid marker is written
after the tracker and both are removed together), which rules out the
unreachable read-of-missing-tracker branch. -/
theorem marker_invariant (s : Vox.SessState) (home now pid : String)
    (blocks : List Vox.Block)
    (h : s.pidFile.isSome = true → s.audioTracker.isSome = true) :
    Vox.markersAbsent (Vox.cleanup s)
    ∧ Vox.markersAbsent (Vox.stop_recording s).2
    ∧ Vox.markersAbsent (Vox.signal_handler s).2
    ∧ Vox.markersAbsent (Vox.start_recording home now pid blocks s).2 := by
  refine ⟨⟨rfl, rfl⟩, ?_, ⟨rfl, rfl⟩, ?_⟩
  · unfold Vox.stop_recording
    rcases hpid : s.pidFile with _ | p
    · simp [Vox.cleanup, Vox.markersAbsent, hpid]
    · have htr : s.audioTracker.isSome = true := h (by simp [hpid])
      rcases htrc : s.audioTracker with _ | f
      · rw [htrc] at htr; simp at htr
      · by_cases hrec : s.recording_process
        all_goals simp [hpid, htrc, hrec, Vox.cleanup, Vox.markersAbsent]
        split <;> simp [Vox.cleanup, Vox.markersAbsent]
  · rcases blocks with _ | ⟨b, bs⟩
    · rw [Vox.start_recording_empty]
      exact ⟨rfl, rfl⟩
    · rw [Vox.start_recording_nonempty home now pid (b :: bs) s (by simp)]
      exact ⟨rfl, rfl⟩

/-- C1 witness: the invariant at a concrete state and concrete session
inputs. -/
theorem marker_invariant_witness :
    Vox.markersAbsent (Vox.cleanup Vox.SessState.init)
    ∧ Vox.markersAbsent (Vox.stop_recording Vox.SessState.init).2
    ∧ Vox.markersAbsent (Vox.signal_handler Vox.SessState.init).2
    ∧ Vox.markersAbsent
        (Vox.start_recording "/home/u" "20250101_000000" "7" [[1, 2]]
          Vox.SessState.init).2 :=
  marker_invariant Vox.SessState.init "/home/u" "20250101_000000" "7"
    [[1, 2]] (by decide)

/-- C9. Buffer append-only discipline: a callback invocation either leaves
the buffer unchanged or appends exactly the delivered block at the end;
once the callback observes the stop event it appends nothing (singly and
over any whole delivery sequence); the GUI callback obeys the identical
discipline. -/
theorem buffer_append_only (b : Vox.Block) (blocks : List Vox.Block)
    (s : Vox.SessState) :
    ((Vox.callback b s).audio_data = s.audio_data
      ∨ (Vox.callback b s).audio_data = s.audio_data ++ [b])
    ∧ (s.stop_event = true → Vox.callback b s = s)
    ∧ (s.stop_event = true →
        blocks.foldl (fun acc x => Vox.callback x acc) s = s)
    ∧ VoxGui.callback b s = Vox.callback b s := by
  refine ⟨?_, ?_, ?_, rfl⟩
  · by_cases hs : s.stop_event
    · left
      simp [Vox.callback, hs]
    · right
      simp [Vox.callback, hs]
  · intro hs
    simp [Vox.callback, hs]
  · intro hs
    exact Vox.foldl_callback_stopped blocks s hs

/-- C9 witness: the discipline at a stopped state and concrete blocks. -/
theorem buffer_append_only_witness :
    Vox.stoppedState.stop_event = true
    ∧ Vox.callback [5] Vox.stoppedState = Vox.stoppedState
    ∧ [[6], [7]].foldl (fun acc x => Vox.callback x acc) Vox.stoppedState =
        Vox.stoppedState
    ∧ VoxGui.callback [5] Vox.stoppedState = Vox.callback [5] Vox.stoppedState :=
  ⟨rfl, (buffer_append_only [5] [[6], [7]] Vox.stoppedState).2.1 rfl,
    (buffer_append_only [5] [[6], [7]] Vox.stoppedState).2.2.1 rfl,
    (buffer_append_only [5] [[6], [7]] Vox.stoppedState).2.2.2⟩

/-- C4. Empty-buffer policy: with no block delivered before the stop,
the session ends in the no-audio-data failure (`sys.exit(1)`), the
waveform location is untouched, both markers are removed, and the
terminal `main` exits 1 without attempting transcription (no request, no
sidecars). -/
theorem empty_buffer_fails_no_write (key home now pid model : String)
    (wavE : Bool) (resp : Vox.HttpResult) (s0 : Vox.SessState)
    (hkey : key ≠ "") :
    (Vox.start_recording home now pid [] s0).1 = Vox.StopResult.exitNoData
    ∧ (Vox.start_recording home now pid [] s0).2.wavFile = s0.wavFile
    ∧ Vox.markersAbsent (Vox.start_recording home now pid [] s0).2
    ∧ Vox.main key home now pid model false [] wavE resp s0 =
        (1, (Vox.start_recording home now pid [] s0).2, Vox.FxState.init)
    ∧ (Vox.main key home now pid model false [] wavE resp s0).2.2.request =
        none := by
  rw [Vox.start_recording_empty home now pid s0]
  refine ⟨rfl, rfl, ⟨rfl, rfl⟩, ?_, ?_⟩
  all_goals
    simp [Vox.main, Vox.check_environment, hkey,
      Vox.start_recording_empty home now pid s0, Vox.FxState.init]

/-- C4 witness: the empty-buffer failure at concrete inputs. -/
theorem empty_buffer_fails_no_write_witness :
    (Vox.start_recording "/home/u" "20250101_000000" "7" []
      Vox.SessState.init).1 = Vox.StopResult.exitNoData
    ∧ (Vox.start_recording "/home/u" "20250101_000000" "7" []
        Vox.SessState.init).2.wavFile = Vox.SessState.init.wavFile
    ∧ Vox.markersAbsent (Vox.start_recording "/home/u" "20250101_000000" "7"
        [] Vox.SessState.init).2
    ∧ Vox.main "k" "/home/u" "20250101_000000" "7" "nova-3" false [] true
        (Vox.HttpResult.connError "e") Vox.SessState.init =
        (1, (Vox.start_recording "/home/u" "20250101_000000" "7" []
          Vox.SessState.init).2, Vox.FxState.init)
    ∧ (Vox.main "k" "/home/u" "20250101_000000" "7" "nova-3" false [] true
        (Vox.HttpResult.connError "e") Vox.SessState.init).2.2.request =
        none :=
  empty_buffer_fails_no_write "k" "/home/u" "20250101_000000" "7" "nova-3"
    true (Vox.HttpResult.connError "e") Vox.SessState.init (by decide)

/-- C5. Non-empty happy path: for any non-empty delivery sequence, the
session returns the target file path and the waveform file written there
carries sample-rate tag 16000, channel count 1, and exactly the
concatenation of the delivered blocks in order. The second hypothesis
records that the target path, as every timestamp-derived path, has no
surrounding whitespace, so the `.strip()` of the tracker content is the
identity. -/
theorem nonempty_happy_path (home now pid : String) (blocks : List Vox.Block)
    (s0 : Vox.SessState) (hb : blocks ≠ [])
    (hpath : Vox.pyStrip (Vox.targetPath home now) = Vox.targetPath home now) :
    (Vox.start_recording home now pid blocks s0).1 =
      Vox.StopResult.path (Vox.targetPath home now)
    ∧ (Vox.start_recording home now pid blocks s0).2.wavFile =
        some ⟨Vox.targetPath home now, 16000, 1, blocks.flatten⟩ := by
  rw [Vox.start_recording_nonempty home now pid blocks s0 hb, hpath]
  exact ⟨rfl, rfl⟩

/-- C5 witness: three concrete blocks are serialized in delivery order
with the 16 kHz mono tags. -/
theorem nonempty_happy_path_witness :
    ([[1, 2], [3], [4, 5]] : List Vox.Block) ≠ []
    ∧ (Vox.start_recording "/home/u" "20250101_000000" "7"
        [[1, 2], [3], [4, 5]] Vox.SessState.init).1 =
        Vox.StopResult.path (Vox.targetPath "/home/u" "20250101_000000")
    ∧ (Vox.start_recording "/home/u" "20250101_000000" "7"
        [[1, 2], [3], [4, 5]] Vox.SessState.init).2.wavFile =
        some ⟨Vox.targetPath "/home/u" "20250101_000000", 16000, 1,
          ([[1, 2], [3], [4, 5]] : List Vox.Block).flatten⟩ :=
  ⟨by decide,
    (nonempty_happy_path "/home/u" "20250101_000000" "7"
      [[1, 2], [3], [4, 5]] Vox.SessState.init (by decide) (by decide)).1,
    (nonempty_happy_path "/home/u" "20250101_000000" "7"
      [[1, 2], [3], [4, 5]] Vox.SessState.init (by decide) (by decide)).2⟩

/-- C2 counterexample: on an HTTP 500 response — a response received from
the endpoint — `raise_for_status()` raises before the sidecar write, so
`<path>.json` is NOT written (only `<path>.error` is). This refutes
"always written on any response received". -/
theorem json_sidecar_skipped_on_http_error :
    (Vox.transcribe "nova-3" "k" true
      (Vox.HttpResult.response 500 (Vox.Json.jobj []) "500 Server Error")
      Vox.FxState.init).2.jsonFile = none
    ∧ (Vox.transcribe "nova-3" "k" true
        (Vox.HttpResult.response 500 (Vox.Json.jobj []) "500 Server Error")
        Vox.FxState.init).2.errorFile = some "500 Server Error" :=
  ⟨rfl, rfl⟩

/-- C2 amended: the `<path>.json` sidecar is written, with the full
response body, exactly for responses that pass `raise_for_status` (status
outside 400-599, i.e. every 2xx); on an HTTP-error response no JSON
sidecar is written. It is written whatever the later shape validation
finds. -/
theorem json_sidecar_on_accepted_status (model key e : String) (status : Nat)
    (body : Vox.Json) (st : Vox.FxState)
    (h : Vox.raiseForStatus status = false) :
    (Vox.transcribe model key true (Vox.HttpResult.response status body e)
      st).2.jsonFile = some body := by
  rcases hx : Vox.extractTranscript body with v | err
  · cases v <;> simp [Vox.transcribe, h, hx]
  · cases err <;> simp [Vox.transcribe, h, hx]

/-- C2 amended, witness: a 2xx response gets its body persisted. -/
theorem json_sidecar_on_accepted_status_witness :
    Vox.raiseForStatus 200 = false
    ∧ (Vox.transcribe "nova-3" "k" true
        (Vox.HttpResult.response 200 (Vox.respBody "hi") "")
        Vox.FxState.init).2.jsonFile = some (Vox.respBody "hi") :=
  ⟨by decide,
    json_sidecar_on_accepted_status "nova-3" "k" "" 200 (Vox.respBody "hi")
      Vox.FxState.init (by decide)⟩

/-- C3 counterexample: for the transcript `"hello "` the plain-text
sidecar receives the trimmed `"hello"` but the clipboard receives the
UNtrimmed `"hello "` (`pyperclip.copy(transcript)` runs on the raw
string), refuting "delivers that trimmed string to the system
clipboard". -/
theorem clipboard_gets_untrimmed_transcript :
    (Vox.transcribe "nova-3" "k" true
      (Vox.HttpResult.response 200 (Vox.respBody "hello ") "")
      Vox.FxState.init).2.txtFile = some "hello"
    ∧ (Vox.transcribe "nova-3" "k" true
        (Vox.HttpResult.response 200 (Vox.respBody "hello ") "")
        Vox.FxState.init).2.clipboard = some "hello "
    ∧ (Vox.transcribe "nova-3" "k" true
        (Vox.HttpResult.response 200 (Vox.respBody "hello ") "")
        Vox.FxState.init).2.clipboard ≠ some "hello" :=
  ⟨rfl, rfl, by decide⟩

/-- C3 amended: for every successful, well-shaped response, `transcribe`
extracts the string at `results.channels[0].alternatives[0].transcript`,
writes it trimmed of trailing whitespace to `<path>.txt`, removes any
pre-existing `<path>.error`, and delivers the UNtrimmed transcript string
to the clipboard. -/
theorem success_sidecars_and_clipboard (model key e t : String)
    (status : Nat) (body : Vox.Json) (st : Vox.FxState)
    (hs : Vox.raiseForStatus status = false)
    (hx : Vox.extractTranscript body = .ok (.jstr t)) :
    Vox.transcribe model key true (Vox.HttpResult.response status body e)
      st =
      (.ok t, { st with request := some (Vox.mkRequest model key)
                        jsonFile := some body
                        txtFile := some (Vox.pyRstrip t)
                        clipboard := some t
                        errorFile := none }) := by
  simp [Vox.transcribe, hs, hx]

/-- C3 amended, witness: the success effects at the concrete transcript
`"hello "`. -/
theorem success_sidecars_and_clipboard_witness :
    Vox.raiseForStatus 200 = false
    ∧ Vox.extractTranscript (Vox.respBody "hello ") =
        Except.ok (Vox.Json.jstr "hello ")
    ∧ Vox.transcribe "nova-3" "k" true
        (Vox.HttpResult.response 200 (Vox.respBody "hello ") "")
        Vox.FxState.init =
        (.ok "hello ",
         { Vox.FxState.init with
             request := some (Vox.mkRequest "nova-3" "k")
             jsonFile := some (Vox.respBody "hello ")
             txtFile := some (Vox.pyRstrip "hello ")
             clipboard := some "hello "
             errorFile := none }) :=
  ⟨by decide, rfl,
    success_sidecars_and_clipboard "nova-3" "k" "" "hello " 200
      (Vox.respBody "hello ") Vox.FxState.init (by decide) rfl⟩

/-- C6. Malformed 2xx response: when the extraction path raises
`KeyError` or `IndexError`, `transcribe` ends in the malformed-response
failure, the JSON sidecar still holds the full body (written before shape
validation), and the text sidecar, clipboard and error sidecar are left
exactly as they were. -/
theorem malformed_response_keeps_json (model key e : String) (status : Nat)
    (body : Vox.Json) (st : Vox.FxState)
    (hs : Vox.raiseForStatus status = false)
    (hx : Vox.extractTranscript body = .error .keyError ∨
          Vox.extractTranscript body = .error .indexError) :
    (Vox.transcribe model key true (Vox.HttpResult.response status body e)
      st).1 = Vox.Outcome.malformedResponse
    ∧ (Vox.transcribe model key true (Vox.HttpResult.response status body e)
        st).2.jsonFile = some body
    ∧ (Vox.transcribe model key true (Vox.HttpResult.response status body e)
        st).2.txtFile = st.txtFile
    ∧ (Vox.transcribe model key true (Vox.HttpResult.response status body e)
        st).2.clipboard = st.clipboard
    ∧ (Vox.transcribe model key true (Vox.HttpResult.response status body e)
        st).2.errorFile = st.errorFile := by
  rcases hx with hx | hx <;>
    exact ⟨by simp [Vox.transcribe, hs, hx], by simp [Vox.transcribe, hs, hx],
      by simp [Vox.transcribe, hs, hx], by simp [Vox.transcribe, hs, hx],
      by simp [Vox.transcribe, hs, hx]⟩

/-- C6 witness: the spec's own probe body `{"results":{}}` raises
`KeyError` at `["channels"]`; the JSON sidecar survives and the text
sidecar stays absent. -/
theorem malformed_response_keeps_json_witness :
    Vox.raiseForStatus 200 = false
    ∧ Vox.extractTranscript (Vox.Json.jobj [("results", Vox.Json.jobj [])]) =
        Except.error Vox.PyErr.keyError
    ∧ (Vox.transcribe "nova-3" "k" true
        (Vox.HttpResult.response 200
          (Vox.Json.jobj [("results", Vox.Json.jobj [])]) "")
        Vox.FxState.init).1 = Vox.Outcome.malformedResponse
    ∧ (Vox.transcribe "nova-3" "k" true
        (Vox.HttpResult.response 200
          (Vox.Json.jobj [("results", Vox.Json.jobj [])]) "")
        Vox.FxState.init).2.jsonFile =
        some (Vox.Json.jobj [("results", Vox.Json.jobj [])])
    ∧ (Vox.transcribe "nova-3" "k" true
        (Vox.HttpResult.response 200
          (Vox.Json.jobj [("results", Vox.Json.jobj [])]) "")
        Vox.FxState.init).2.txtFile = Vox.FxState.init.txtFile :=
  ⟨by decide, rfl,
    (malformed_response_keeps_json "nova-3" "k" "" 200
      (Vox.Json.jobj [("results", Vox.Json.jobj [])]) Vox.FxState.init
      (by decide) (Or.inl rfl)).1,
    (malformed_response_keeps_json "nova-3" "k" "" 200
      (Vox.Json.jobj [("results", Vox.Json.jobj [])]) Vox.FxState.init
      (by decide) (Or.inl rfl)).2.1,
    (malformed_response_keeps_json "nova-3" "k" "" 200
      (Vox.Json.jobj [("results", Vox.Json.jobj [])]) Vox.FxState.init
      (by decide) (Or.inl rfl)).2.2.1⟩

/-- C7. Missing audio file: both front ends fail immediately with the
missing-audio error and change nothing — starting from a state with no
request performed and no sidecars, all of them stay absent (so no network
call and no sidecar writes happen). -/
theorem missing_audio_no_effects (model key : String) (resp : Vox.HttpResult)
    (st : Vox.FxState) (tr0 : VoxGui.PyVal) :
    Vox.transcribe model key false resp st = (.missingAudio, st)
    ∧ (Vox.transcribe model key false resp Vox.FxState.init).2.request = none
    ∧ (Vox.transcribe model key false resp Vox.FxState.init).2.jsonFile = none
    ∧ (Vox.transcribe model key false resp Vox.FxState.init).2.txtFile = none
    ∧ (Vox.transcribe model key false resp Vox.FxState.init).2.errorFile =
        none
    ∧ VoxGui.transcribe model key false resp st tr0 =
        (.missingAudio, st, .str "") :=
  ⟨rfl, rfl, rfl, rfl, rfl, rfl⟩

/-- C10 counterexample: on a SUCCESSFUL transcription the two front ends
still differ — the terminal `transcribe` places the transcript on the
clipboard, the GUI `transcribe` does not (copying is a separate button) —
so they do not differ only in how failure is surfaced. -/
theorem clipboard_divergence :
    (Vox.transcribe "nova-3" "k" true
      (Vox.HttpResult.response 200 (Vox.respBody "hello") "")
      Vox.FxState.init).2.clipboard = some "hello"
    ∧ (VoxGui.transcribe "nova-3" "k" true
        (Vox.HttpResult.response 200 (Vox.respBody "hello") "")
        Vox.FxState.init (VoxGui.PyVal.str "")).2.1.clipboard = none
    ∧ (VoxGui.transcribe "nova-3" "k" true
        (Vox.HttpResult.response 200 (Vox.respBody "hello") "")
        Vox.FxState.init (VoxGui.PyVal.str "")).1 = Vox.Outcome.ok "hello" :=
  ⟨rfl, rfl, rfl⟩

/-- C10 amended: for the same audio file, credential, model and response,
the two `transcribe` implementations take the same branch, produce the
same network request and the same `<path>.json` / `<path>.txt` /
`<path>.error` sidecar contents, and extract the same transcript string;
they differ in surfacing (exit vs status text) and in clipboard delivery
(terminal copies inside `transcribe`, GUI defers to the Copy button). -/
theorem transcribe_client_equiv (model key : String) (ae : Bool)
    (resp : Vox.HttpResult) (st : Vox.FxState) (tr0 : VoxGui.PyVal) :
    (Vox.transcribe model key ae resp st).1 =
      (VoxGui.transcribe model key ae resp st tr0).1
    ∧ Vox.sidecarView (Vox.transcribe model key ae resp st).2 =
        Vox.sidecarView (VoxGui.transcribe model key ae resp st tr0).2.1
    ∧ ∀ t, (Vox.transcribe model key ae resp st).1 = Vox.Outcome.ok t →
        (VoxGui.transcribe model key ae resp st tr0).2.2 =
          VoxGui.PyVal.str t := by
  cases ae
  · exact ⟨rfl, rfl, fun t h => nomatch h⟩
  · rcases resp with ⟨status, body, e⟩ | e
    · by_cases hs : Vox.raiseForStatus status
      · refine ⟨?_, ?_, ?_⟩ <;>
          simp [Vox.transcribe, VoxGui.transcribe, Vox.sidecarView, hs]
      · rcases hx : Vox.extractTranscript body with v | err
        · cases v <;>
            · refine ⟨?_, ?_, ?_⟩ <;>
                simp [Vox.transcribe, VoxGui.transcribe, Vox.sidecarView,
                  hs, hx]
        · cases err <;>
            · refine ⟨?_, ?_, ?_⟩ <;>
                simp [Vox.transcribe, VoxGui.transcribe, Vox.sidecarView,
                  hs, hx]
    · exact ⟨rfl, rfl, fun t h => nomatch h⟩

/-- C10 amended, witness: the agreement at a concrete successful run. -/
theorem transcribe_client_equiv_witness :
    (Vox.transcribe "nova-3" "k" true
      (Vox.HttpResult.response 200 (Vox.respBody "hi") "")
      Vox.FxState.init).1 =
      (VoxGui.transcribe "nova-3" "k" true
        (Vox.HttpResult.response 200 (Vox.respBody "hi") "")
        Vox.FxState.init (VoxGui.PyVal.str "")).1
    ∧ Vox.sidecarView (Vox.transcribe "nova-3" "k" true
        (Vox.HttpResult.response 200 (Vox.respBody "hi") "")
        Vox.FxState.init).2 =
        Vox.sidecarView (VoxGui.transcribe "nova-3" "k" true
          (Vox.HttpResult.response 200 (Vox.respBody "hi") "")
          Vox.FxState.init (VoxGui.PyVal.str "")).2.1
    ∧ (Vox.transcribe "nova-3" "k" true
        (Vox.HttpResult.response 200 (Vox.respBody "hi") "")
        Vox.FxState.init).1 = Vox.Outcome.ok "hi"
    ∧ (VoxGui.transcribe "nova-3" "k" true
        (Vox.HttpResult.response 200 (Vox.respBody "hi") "")
        Vox.FxState.init (VoxGui.PyVal.str "")).2.2 =
        VoxGui.PyVal.str "hi" :=
  ⟨(transcribe_client_equiv "nova-3" "k" true
      (Vox.HttpResult.response 200 (Vox.respBody "hi") "")
      Vox.FxState.init (VoxGui.PyVal.str "")).1,
    (transcribe_client_equiv "nova-3" "k" true
      (Vox.HttpResult.response 200 (Vox.respBody "hi") "")
      Vox.FxState.init (VoxGui.PyVal.str "")).2.1,
    rfl,
    (transcribe_client_equiv "nova-3" "k" true
      (Vox.HttpResult.response 200 (Vox.respBody "hi") "")
      Vox.FxState.init (VoxGui.PyVal.str "")).2.2 "hi" rfl⟩

/-- C8. Terminal front-end exit codes: 1 on missing credential, 0 on
interrupt (after cleanup), 1 on empty recording, 1 on missing audio file
at transcription time, 1 on transport failure (connection error or HTTP
error status), 1 on malformed response, and 0 on full success. -/
theorem exit_codes (key home now pid model e : String) (i : Bool)
    (blocks : List Vox.Block) (wavE : Bool) (resp : Vox.HttpResult)
    (s0 : Vox.SessState) (sBad sOk : Nat) (bodyBad bodyOk : Vox.Json)
    (t : String) :
    (Vox.main "" home now pid model i blocks wavE resp s0).1 = 1
    ∧ (key ≠ "" →
        (Vox.main key home now pid model true blocks wavE resp s0).1 = 0)
    ∧ (key ≠ "" →
        (Vox.main key home now pid model false [] wavE resp s0).1 = 1)
    ∧ (key ≠ "" → blocks ≠ [] →
        (Vox.main key home now pid model false blocks false resp s0).1 = 1)
    ∧ (key ≠ "" → blocks ≠ [] →
        (Vox.main key home now pid model false blocks true
          (Vox.HttpResult.connError e) s0).1 = 1)
    ∧ (key ≠ "" → blocks ≠ [] → Vox.raiseForStatus sBad = true →
        (Vox.main key home now pid model false blocks true
          (Vox.HttpResult.response sBad bodyBad e) s0).1 = 1)
    ∧ (key ≠ "" → blocks ≠ [] → Vox.raiseForStatus sOk = false →
        (Vox.extractTranscript bodyBad = .error .keyError ∨
         Vox.extractTranscript bodyBad = .error .indexError) →
        (Vox.main key home now pid model false blocks true
          (Vox.HttpResult.response sOk bodyBad e) s0).1 = 1)
    ∧ (key ≠ "" → blocks ≠ [] → Vox.raiseForStatus sOk = false →
        Vox.extractTranscript bodyOk = Except.ok (Vox.Json.jstr t) →
        (Vox.main key home now pid model false blocks true
          (Vox.HttpResult.response sOk bodyOk e) s0).1 = 0) := by
  refine ⟨?_, ?_, ?_, ?_, ?_, ?_, ?_, ?_⟩
  · simp [Vox.main, Vox.check_environment]
  · intro hk
    simp [Vox.main, Vox.check_environment, hk, Vox.signal_handler]
  · intro hk
    simp [Vox.main, Vox.check_environment, hk, Vox.start_recording_empty]
  · intro hk hb
    simp [Vox.main, Vox.check_environment, hk,
      Vox.start_recording_nonempty home now pid blocks s0 hb, Vox.transcribe]
  · intro hk hb
    simp [Vox.main, Vox.check_environment, hk,
      Vox.start_recording_nonempty home now pid blocks s0 hb, Vox.transcribe]
  · intro hk hb hs
    simp [Vox.main, Vox.check_environment, hk,
      Vox.start_recording_nonempty home now pid blocks s0 hb,
      Vox.transcribe, hs]
  · intro hk hb hs hx
    rcases hx with hx | hx <;>
      simp [Vox.main, Vox.check_environment, hk,
        Vox.start_recording_nonempty home now pid blocks s0 hb,
        Vox.transcribe, hs, hx]
  · intro hk hb hs hx
    simp [Vox.main, Vox.check_environment, hk,
      Vox.start_recording_nonempty home now pid blocks s0 hb,
      Vox.transcribe, hs, hx]

/-- C8 witness: every exit-code scenario at concrete inputs. -/
theorem exit_codes_witness :
    ("k" : String) ≠ ""
    ∧ ([[1]] : List Vox.Block) ≠ []
    ∧ Vox.raiseForStatus 500 = true
    ∧ Vox.raiseForStatus 200 = false
    ∧ (Vox.main "" "/h" "20250101_000000" "7" "nova-3" false [[1]] true
        (Vox.HttpResult.connError "x") Vox.SessState.init).1 = 1
    ∧ (Vox.main "k" "/h" "20250101_000000" "7" "nova-3" true [[1]] true
        (Vox.HttpResult.connError "x") Vox.SessState.init).1 = 0
    ∧ (Vox.main "k" "/h" "20250101_000000" "7" "nova-3" false [] true
        (Vox.HttpResult.connError "x") Vox.SessState.init).1 = 1
    ∧ (Vox.main "k" "/h" "20250101_000000" "7" "nova-3" false [[1]] false
        (Vox.HttpResult.connError "x") Vox.SessState.init).1 = 1
    ∧ (Vox.main "k" "/h" "20250101_000000" "7" "nova-3" false [[1]] true
        (Vox.HttpResult.connError "boom") Vox.SessState.init).1 = 1
    ∧ (Vox.main "k" "/h" "20250101_000000" "7" "nova-3" false [[1]] true
        (Vox.HttpResult.response 500
          (Vox.Json.jobj [("results", Vox.Json.jobj [])]) "boom")
        Vox.SessState.init).1 = 1
    ∧ (Vox.main "k" "/h" "20250101_000000" "7" "nova-3" false [[1]] true
        (Vox.HttpResult.response 200
          (Vox.Json.jobj [("results", Vox.Json.jobj [])]) "boom")
        Vox.SessState.init).1 = 1
    ∧ (Vox.main "k" "/h" "20250101_000000" "7" "nova-3" false [[1]] true
        (Vox.HttpResult.response 200 (Vox.respBody "hi") "boom")
        Vox.SessState.init).1 = 0 := by
  have h := exit_codes "k" "/h" "20250101_000000" "7" "nova-3" "boom" false
    [[1]] true (Vox.HttpResult.connError "x") Vox.SessState.init 500 200
    (Vox.Json.jobj [("results", Vox.Json.jobj [])]) (Vox.respBody "hi") "hi"
  exact ⟨by decide, by decide, by decide, by decide,
    h.1, h.2.1 (by decide), h.2.2.1 (by decide),
    h.2.2.2.1 (by decide) (by decide),
    h.2.2.2.2.1 (by decide) (by decide),
    h.2.2.2.2.2.1 (by decide) (by decide) (by decide),
    h.2.2.2.2.2.2.1 (by decide) (by decide) (by decide) (Or.inl rfl),
    h.2.2.2.2.2.2.2 (by decide) (by decide) (by decide) rfl⟩
